import Mathlib

/-!
Verification of the flight profitability planner (`planning.js`).

The embedding is shallow and typed: table rows and flight requests are
structures whose numeric cells carry the values that the source obtains via
`parseInt` / `parseFloat` on the corresponding string columns; monetary and
distance values are rationals, seat counts are integers.  The CSV reader is
embedded over `List Char`, mirroring the source's line splitting, trimming
and comment stripping exactly.
-/

deriving instance DecidableEq for Except

/-- One row of the airports table.
Column 0 is the airport code, column 1 the name, column 2 the distance from
`MAN` (`parseFloat(row[2])`), column 3 the distance from any other origin
(`parseFloat(row[3])`). -/
structure AirportRow where
  code : String
  name : String
  distanceFromMAN : ℚ
  distanceFromOther : ℚ
deriving DecidableEq, Repr

/-- One row of the aeroplanes table.
Column 0 is the aircraft type, column 1 the cost cell (a currency-prefixed
numeral; `costFigure` is its numeric value after the `£` is stripped, i.e.
`parseFloat(row[1].replace('£',''))`), column 2 the maximum range, columns
3-5 the per-class seat capacities (`parseInt`). -/
structure AircraftRow where
  typeName : String
  costFigure : ℚ
  maxRange : ℚ
  economySeatsAvailable : Int
  businessSeatsAvailable : Int
  firstClassSeatsAvailable : Int
deriving DecidableEq, Repr

/-- One flight request, in the source's positional field order.  Seat counts
carry the `parseInt` value of the corresponding field, prices the
`parseFloat` value. -/
structure Flight where
  ukAirportCode : String
  overseasAirportCode : String
  aircraftType : String
  econSeats : Int
  busSeats : Int
  firstSeats : Int
  econPrice : ℚ
  busPrice : ℚ
  firstPrice : ℚ
deriving DecidableEq, Repr

/-- The result record returned on success: the original request together with
the three monetary figures already formatted by `toFixed(2)`. -/
structure FlightResult where
  flightDetails : Flight
  income : String
  cost : String
  profit : String
deriving DecidableEq, Repr

/-- The validation failures thrown by `validateAndCalculateProfit`, with the
data interpolated into each message. -/
inductive FlightError where
  | invalidAirport (code : String)
  | invalidAircraft (typeName : String)
  | insufficientRange (typeName : String) (code : String)
  | tooManyTotal (booked available : Int)
  | tooManyEconomy (booked available : Int)
  | tooManyBusiness (booked available : Int)
  | tooManyFirst (booked available : Int)
deriving DecidableEq, Repr

/-- The message text of each error, as thrown by the source. -/
def FlightError.message : FlightError → String
  | .invalidAirport code => "Invalid airport code: " ++ code
  | .invalidAircraft t => "Invalid aircraft type: " ++ t
  | .insufficientRange t code => t ++ " doesn't have the range to fly to " ++ code
  | .tooManyTotal b a =>
      "Too many total seats booked (" ++ toString b ++ " > " ++ toString a ++ ")"
  | .tooManyEconomy b a =>
      "Too many economy seats booked (" ++ toString b ++ " > " ++ toString a ++ ")"
  | .tooManyBusiness b a =>
      "Too many business seats booked (" ++ toString b ++ " > " ++ toString a ++ ")"
  | .tooManyFirst b a =>
      "Too many first-class seats booked (" ++ toString b ++ " > " ++ toString a ++ ")"

/-- The floor of a rational, computed on its normalized numerator and
denominator by floor division. -/
def floorQ (q : ℚ) : Int := Int.fdiv q.num q.den

/-- Render a signed number of hundredths as a decimal string with exactly
two digits after the point. -/
def centsRepr (cents : Int) : String :=
  let whole : Nat := cents.natAbs / 100
  let frac : Nat := cents.natAbs % 100
  (if cents < 0 then "-" else "") ++ toString whole ++ "." ++
    (if frac < 10 then "0" ++ toString frac else toString frac)

/-- JavaScript `Number.prototype.toFixed(2)` on an exactly represented value:
round to the nearest hundredth (ties towards the larger value) and print with
exactly two decimal digits. -/
def toFixed2 (q : ℚ) : String :=
  centsRepr (floorQ (q * 100 + 1 / 2))

/-- The distance selected for a flight from a found airport row:
`(ukAirportCode === 'MAN') ? parseFloat(airportData[2]) : parseFloat(airportData[3])`. -/
def distanceOf (flight : Flight) (airportData : AirportRow) : ℚ :=
  if flight.ukAirportCode = "MAN" then airportData.distanceFromMAN
  else airportData.distanceFromOther

/-- The evaluator `validateAndCalculateProfit(flight, airports, aeroplanes)`: thrown errors
become `Except.error`. -/
def validateAndCalculateProfit (flight : Flight) (airports : List AirportRow)
    (aeroplanes : List AircraftRow) : Except FlightError FlightResult :=
  match airports.find? (fun row => row.code == flight.overseasAirportCode) with
  | none => .error (.invalidAirport flight.overseasAirportCode)
  | some airportData =>
    let distance := distanceOf flight airportData
    match aeroplanes.find? (fun row => row.typeName == flight.aircraftType) with
    | none => .error (.invalidAircraft flight.aircraftType)
    | some aircraftData =>
      let runningCost := aircraftData.costFigure / 100
      let maxRange := aircraftData.maxRange
      let economySeatsAvailable := aircraftData.economySeatsAvailable
      let businessSeatsAvailable := aircraftData.businessSeatsAvailable
      let firstClassSeatsAvailable := aircraftData.firstClassSeatsAvailable
      let totalSeats := economySeatsAvailable + businessSeatsAvailable + firstClassSeatsAvailable
      if distance > maxRange then
        .error (.insufficientRange flight.aircraftType flight.overseasAirportCode)
      else
        let totalSeatsBooked := flight.econSeats + flight.busSeats + flight.firstSeats
        if totalSeatsBooked > totalSeats then
          .error (.tooManyTotal totalSeatsBooked totalSeats)
        else if flight.econSeats > economySeatsAvailable then
          .error (.tooManyEconomy flight.econSeats economySeatsAvailable)
        else if flight.busSeats > businessSeatsAvailable then
          .error (.tooManyBusiness flight.busSeats businessSeatsAvailable)
        else if flight.firstSeats > firstClassSeatsAvailable then
          .error (.tooManyFirst flight.firstSeats firstClassSeatsAvailable)
        else
          let totalIncome := (flight.econSeats : ℚ) * flight.econPrice
            + (flight.busSeats : ℚ) * flight.busPrice
            + (flight.firstSeats : ℚ) * flight.firstPrice
          let costPerSeat := runningCost * distance
          let totalCost := costPerSeat * (totalSeatsBooked : ℚ)
          let profit := totalIncome - totalCost
          .ok { flightDetails := flight
                income := toFixed2 totalIncome
                cost := toFixed2 totalCost
                profit := toFixed2 profit }

/-- The batch processor `processFlights(flights, airports, aeroplanes)`: the `forEach` loop that
pushes successes onto `results` and, for each thrown error, pushes the
offending flight together with the error message onto `errorMessages` (the
source renders the pair into the single line
`Flight Data: <fields> - Error: <message>`). -/
def processFlights (flights : List Flight) (airports : List AirportRow)
    (aeroplanes : List AircraftRow) : List FlightResult × List (Flight × String) :=
  flights.foldl
    (fun acc flight =>
      match validateAndCalculateProfit flight airports aeroplanes with
      | .ok result => (acc.1 ++ [result], acc.2)
      | .error e => (acc.1, acc.2 ++ [(flight, e.message)]))
    ([], [])

/-!  The CSV reader, embedded over `List Char`.  -/

/-- The whitespace characters removed by `String.prototype.trim` that can
occur in these data files. -/
def isSpaceChar (c : Char) : Bool :=
  c == ' ' || c == '\t' || c == '\n' || c == '\r'

/-- Remove leading whitespace. -/
def trimLeft (cs : List Char) : List Char := cs.dropWhile isSpaceChar

/-- Remove trailing whitespace. -/
def trimRight (cs : List Char) : List Char :=
  (cs.reverse.dropWhile isSpaceChar).reverse

/-- JavaScript `trim()`: remove leading and trailing whitespace. -/
def trimChars (cs : List Char) : List Char := trimRight (trimLeft cs)

/-- JavaScript `String.prototype.split(sep)` for a single-character
separator: always returns at least one (possibly empty) piece. -/
def splitOnChar (sep : Char) : List Char → List (List Char)
  | [] => [[]]
  | c :: cs =>
    let r := splitOnChar sep cs
    if c == sep then [] :: r else (c :: r.headI) :: r.tail

/-- The comment stripping step `if (row.includes('#')) row = row.split('#')[0].trim()`. -/
def stripComment (row : List Char) : List Char :=
  if row.contains '#' then trimChars (splitOnChar '#' row).headI else row

/-- The body of the reader's loop for one line below the header: trim, strip
any comment, drop the line if it is then empty, otherwise split it on the
delimiter. -/
def parseRow (delimiter : Char) (line : List Char) : Option (List (List Char)) :=
  let row := trimChars line
  let row := stripComment row
  if row.isEmpty then none else some (splitOnChar delimiter row)

/-- The reader `readCsv`, applied to the file content: split on newlines, skip the
header line, and collect the parsed rows in order. -/
def readCsv (delimiter : Char) (content : List Char) : List (List (List Char)) :=
  ((splitOnChar '\n' content).drop 1).filterMap (parseRow delimiter)

/-!  A generator for well-formed table files, used to state the round-trip
property of the reader.  -/

/-- JavaScript `Array.prototype.join` for a single-character separator. -/
def joinWith (sep : Char) : List (List Char) → List Char
  | [] => []
  | [f] => f
  | f :: g :: fs => f ++ sep :: joinWith sep (g :: fs)

/-- One serialized data row: the fields joined by the delimiter, followed by
an optional `#`-comment suffix. -/
def genLine (delimiter : Char) (row : List (List Char) × List Char) : List Char :=
  joinWith delimiter row.1 ++ row.2

/-- A generated file: one header line, then one line per data row. -/
def genContent (delimiter : Char) (header : List Char)
    (rows : List (List (List Char) × List Char)) : List Char :=
  header ++ '\n' :: joinWith '\n' (rows.map (genLine delimiter))

/-- A well-formed field: non-empty, free of whitespace, `#`, the delimiter
and newlines. -/
def goodField (delimiter : Char) (f : List Char) : Bool :=
  !f.isEmpty && f.all (fun c => !isSpaceChar c && c != '#' && c != delimiter && c != '\n')

/-- A well-formed comment suffix: either absent or starting with `#` and
free of newlines. -/
def goodComment : List Char → Bool
  | [] => true
  | c :: t => c == '#' && t.all (fun d => d != '\n')

/-- A well-formed data row: at least one field, all fields well formed, and
a well-formed comment suffix. -/
def goodRow (delimiter : Char) (row : List (List Char) × List Char) : Bool :=
  !row.1.isEmpty && row.1.all (goodField delimiter) && goodComment row.2

/-!  Concrete data, taken from the repository's test fixtures.  -/

/-- The strip step `cell.replace('£', '')`: JavaScript `replace` with a string pattern
removes the first occurrence only. -/
def stripPound : List Char → List Char
  | [] => []
  | c :: cs => if c = '£' then cs else c :: stripPound cs

/-- The numeric value of a plain decimal numeral. -/
def digitsToNat (cs : List Char) : Nat :=
  cs.foldl (fun n c => 10 * n + (c.toNat - '0'.toNat)) 0

/-- The parse `parseFloat(cell.replace('£', ''))` for the non-negative integer cost
cells appearing in the aeroplanes table. -/
def parsePoundCell (s : String) : ℚ :=
  (digitsToNat (stripPound s.toList) : ℚ)

/-- The JFK row of the airports fixture. -/
def rowJFK : AirportRow := ⟨"JFK", "John F Kennedy International", 5376, 5583⟩

/-- The ORY row of the airports fixture. -/
def rowORY : AirportRow := ⟨"ORY", "Paris-Orly", 610, 325⟩

/-- The airports fixture. -/
def airportsData : List AirportRow := [rowJFK, rowORY]

/-- The Medium narrow body row of the aeroplanes fixture. -/
def craftMedium : AircraftRow := ⟨"Medium narrow body", parsePoundCell "£8", 2650, 160, 12, 0⟩

/-- The Large narrow body row of the aeroplanes fixture. -/
def craftLarge : AircraftRow := ⟨"Large narrow body", parsePoundCell "£7", 5600, 180, 20, 4⟩

/-- The aeroplanes fixture. -/
def aeroplanesData : List AircraftRow := [craftMedium, craftLarge]

/-- The first valid flight of the fixture: MAN to JFK on a Large narrow
body, booking 150/12/2 seats at prices 399/999/1899. -/
def flightMANJFK : Flight :=
  ⟨"MAN", "JFK", "Large narrow body", 150, 12, 2, 399, 999, 1899⟩

/-- The result the source computes for `flightMANJFK`. -/
def resultMANJFK : FlightResult := ⟨flightMANJFK, "75636.00", "61716.48", "13919.52"⟩

/-- A request whose destination code is absent from the airports fixture
while its economy booking exceeds the Large narrow body economy capacity
and its total booking stays within the total capacity. -/
def cexFlightC6 : Flight :=
  ⟨"LGW", "ZZZ", "Large narrow body", 190, 10, 2, 100, 100, 100⟩

/-- A request that passes every earlier gate and overbooks only economy. -/
def witFlightC6 : Flight :=
  ⟨"LGW", "ORY", "Medium narrow body", 165, 5, 0, 150, 450, 0⟩

/-- A request with negative booked-seat counts that passes every gate. -/
def negativeFlight : Flight :=
  ⟨"MAN", "ORY", "Medium narrow body", -5, -3, 0, 150, 450, 0⟩

/-- A header line for a generated table file. -/
def csvHeader : List Char := "code,name,dist".toList

/-- Two well-formed data rows for a generated table file, the first with a
comment suffix appended. -/
def csvRows : List (List (List Char) × List Char) :=
  [(["JFK".toList, "John".toList, "5376".toList], "#primary".toList),
   (["ORY".toList, "Paris-Orly".toList, "610".toList], [])]

/-!  Definitions used only to state the claims.  -/

/-- Written from the spec's description of the gate order: unknown
destination, unknown aircraft, insufficient range, total overbooking, then
economy, business and first-class overbooking; the first failing gate
produces the error, and a request that passes every gate produces none. -/
def firstFailure (flight : Flight) (airports : List AirportRow)
    (aeroplanes : List AircraftRow) : Option FlightError :=
  match airports.find? (fun row => row.code == flight.overseasAirportCode) with
  | none => some (.invalidAirport flight.overseasAirportCode)
  | some airportData =>
    match aeroplanes.find? (fun row => row.typeName == flight.aircraftType) with
    | none => some (.invalidAircraft flight.aircraftType)
    | some aircraftData =>
      let totalSeats := aircraftData.economySeatsAvailable
        + aircraftData.businessSeatsAvailable + aircraftData.firstClassSeatsAvailable
      if distanceOf flight airportData > aircraftData.maxRange then
        some (.insufficientRange flight.aircraftType flight.overseasAirportCode)
      else if flight.econSeats + flight.busSeats + flight.firstSeats > totalSeats then
        some (.tooManyTotal (flight.econSeats + flight.busSeats + flight.firstSeats) totalSeats)
      else if flight.econSeats > aircraftData.economySeatsAvailable then
        some (.tooManyEconomy flight.econSeats aircraftData.economySeatsAvailable)
      else if flight.busSeats > aircraftData.businessSeatsAvailable then
        some (.tooManyBusiness flight.busSeats aircraftData.businessSeatsAvailable)
      else if flight.firstSeats > aircraftData.firstClassSeatsAvailable then
        some (.tooManyFirst flight.firstSeats aircraftData.firstClassSeatsAvailable)
      else none

/-- The error reported by an evaluation, if any. -/
def errorOf : Except FlightError FlightResult → Option FlightError
  | .error e => some e
  | .ok _ => none

/-- The three monetary figures of a result, without the echoed request. -/
def resultFigures (r : FlightResult) : String × String × String :=
  (r.income, r.cost, r.profit)

/-- The same request with a different origin code. -/
def setOrigin (flight : Flight) (code : String) : Flight :=
  { flight with ukAirportCode := code }

/-- Whether an evaluation failed specifically with the economy-class
overbooking error. -/
def isEconomyOverbooking : Except FlightError FlightResult → Bool
  | .error (.tooManyEconomy _ _) => true
  | _ => false


/-!  Helper lemmas.  -/

theorem floorQ_eq_floor (q : ℚ) : floorQ q = ⌊q⌋ := by
  rw [Rat.floor_def, floorQ]
  exact Int.fdiv_eq_ediv _ (Int.natCast_nonneg _)

theorem toFixed2_eq_of (q : ℚ) (c : ℤ) (s : String) (h : q * 100 = (c : ℚ))
    (hs : centsRepr c = s) : toFixed2 q = s := by
  have hhalf : ⌊(1/2 : ℚ)⌋ = 0 := by norm_num
  rw [toFixed2, floorQ_eq_floor, h, Int.floor_int_add, hhalf, add_zero, hs]

theorem parsePoundCell_seven : parsePoundCell "£7" = 7 := by
  rw [parsePoundCell, show digitsToNat (stripPound "£7".toList) = 7 from rfl]
  norm_num

theorem evalMANJFK : validateAndCalculateProfit flightMANJFK airportsData aeroplanesData =
    .ok resultMANJFK := by
  have hfind1 : airportsData.find? (fun row => row.code == flightMANJFK.overseasAirportCode) =
      some rowJFK := rfl
  have hfind2 : aeroplanesData.find? (fun row => row.typeName == flightMANJFK.aircraftType) =
      some craftLarge := rfl
  have hdist : distanceOf flightMANJFK rowJFK = 5376 := rfl
  simp only [validateAndCalculateProfit, hfind1, hfind2, hdist, resultMANJFK, craftLarge,
    parsePoundCell_seven]
  norm_num [flightMANJFK]
  refine ⟨?_, ?_, ?_⟩
  · exact toFixed2_eq_of _ 7563600 _ (by push_cast; norm_num) (by decide)
  · exact toFixed2_eq_of _ 6171648 _ (by push_cast; norm_num) (by decide)
  · exact toFixed2_eq_of _ 1391952 _ (by push_cast; norm_num) (by decide)

theorem processFlights_foldl (airports : List AirportRow) (aeroplanes : List AircraftRow)
    (flights : List Flight) (acc : List FlightResult × List (Flight × String)) :
    flights.foldl
      (fun acc flight =>
        match validateAndCalculateProfit flight airports aeroplanes with
        | .ok result => (acc.1 ++ [result], acc.2)
        | .error e => (acc.1, acc.2 ++ [(flight, e.message)]))
      acc =
    (acc.1 ++ flights.filterMap
        (fun flight => (validateAndCalculateProfit flight airports aeroplanes).toOption),
     acc.2 ++ flights.filterMap
        (fun flight =>
          match validateAndCalculateProfit flight airports aeroplanes with
          | .ok _ => none
          | .error e => some (flight, e.message))) := by
  induction flights generalizing acc with
  | nil => simp
  | cons f rest ih =>
    cases h : validateAndCalculateProfit f airports aeroplanes with
    | ok r => simp [List.foldl_cons, h, ih, Except.toOption]
    | error e => simp [List.foldl_cons, h, ih, Except.toOption]

theorem splitOnChar_ne_nil (sep : Char) (l : List Char) : splitOnChar sep l ≠ [] := by
  cases l with
  | nil => simp [splitOnChar]
  | cons c cs =>
    rw [splitOnChar]
    split <;> simp

theorem splitOnChar_of_not_mem (sep : Char) (l : List Char) (h : sep ∉ l) :
    splitOnChar sep l = [l] := by
  induction l with
  | nil => rfl
  | cons c cs ih =>
    rw [splitOnChar, ih (fun hc => h (List.mem_cons_of_mem c hc))]
    rw [if_neg (by simp; exact fun he => h (he ▸ List.mem_cons_self c cs))]
    rfl

theorem splitOnChar_sep_cons (sep : Char) (ys : List Char) :
    splitOnChar sep (sep :: ys) = [] :: splitOnChar sep ys := by
  rw [splitOnChar, if_pos (by simp)]

theorem splitOnChar_append_sep (sep : Char) (xs ys : List Char) (h : sep ∉ xs) :
    splitOnChar sep (xs ++ sep :: ys) = xs :: splitOnChar sep ys := by
  induction xs with
  | nil => simpa using splitOnChar_sep_cons sep ys
  | cons x xs ih =>
    have hx : x ≠ sep := fun he => h (he ▸ List.mem_cons_self x xs)
    have ih' := ih (fun hm => h (List.mem_cons_of_mem x hm))
    rw [List.cons_append, splitOnChar, ih', if_neg (by simp [hx])]
    simp

theorem dropWhile_eq_self_of (p : Char → Bool) (l : List Char)
    (h : ∀ c ∈ l, p c = false) : l.dropWhile p = l := by
  cases l with
  | nil => rfl
  | cons c cs => rw [List.dropWhile_cons, h c (List.mem_cons_self c cs)]; simp

theorem dropWhile_append_of (p : Char → Bool) (as bs : List Char) (b : Char)
    (h : p b = false) : (as ++ b :: bs).dropWhile p = as.dropWhile p ++ b :: bs := by
  induction as with
  | nil => simp [List.dropWhile_cons, h]
  | cons a as ih =>
    rw [List.cons_append, List.dropWhile_cons, List.dropWhile_cons]
    cases hpa : p a with
    | true => simpa [hpa] using ih
    | false => simp [hpa]

theorem trimChars_eq_self (l : List Char) (h : ∀ c ∈ l, isSpaceChar c = false) :
    trimChars l = l := by
  rw [trimChars, trimLeft, trimRight, dropWhile_eq_self_of _ _ h,
    dropWhile_eq_self_of _ _ (fun c hc => h c (List.mem_reverse.mp hc)), List.reverse_reverse]

theorem trimChars_append_hash (j t : List Char) (hj : j ≠ [])
    (h : ∀ c ∈ j, isSpaceChar c = false) :
    trimChars (j ++ '#' :: t) = j ++ '#' :: (t.reverse.dropWhile isSpaceChar).reverse := by
  have hhash : isSpaceChar '#' = false := rfl
  rw [trimChars, trimLeft]
  cases j with
  | nil => exact absurd rfl hj
  | cons c cs =>
    rw [List.cons_append, List.dropWhile_cons, h c (List.mem_cons_self c cs)]
    simp only [Bool.false_eq_true, if_false]
    rw [trimRight, List.reverse_cons, List.reverse_append, List.reverse_cons]
    rw [show t.reverse ++ ['#'] ++ cs.reverse ++ [c] = t.reverse ++ '#' :: (cs.reverse ++ [c])
        by simp]
    rw [dropWhile_append_of _ _ _ _ hhash]
    simp

theorem joinWith_ne_nil (sep : Char) (lines : List (List Char)) (h : lines ≠ [])
    (hn : ∀ l ∈ lines, l ≠ []) : joinWith sep lines ≠ [] := by
  cases lines with
  | nil => exact absurd rfl h
  | cons f fs =>
    cases fs with
    | nil => simpa [joinWith] using hn f (List.mem_cons_self f [])
    | cons g gs =>
      rw [joinWith]
      have := hn f (List.mem_cons_self f (g :: gs))
      cases f with
      | nil => exact absurd rfl this
      | cons c cs => simp

theorem mem_joinWith (sep : Char) (lines : List (List Char)) (c : Char)
    (h : c ∈ joinWith sep lines) : c = sep ∨ ∃ l ∈ lines, c ∈ l := by
  induction lines with
  | nil => simp [joinWith] at h
  | cons f fs ih =>
    cases fs with
    | nil => exact Or.inr ⟨f, by simp, by simpa [joinWith] using h⟩
    | cons g gs =>
      rw [joinWith] at h
      rcases List.mem_append.mp h with hf | hrest
      · exact Or.inr ⟨f, List.mem_cons_self f _, hf⟩
      · rcases List.mem_cons.mp hrest with hc | hj
        · exact Or.inl hc
        · rcases ih hj with hs | ⟨l, hl, hcl⟩
          · exact Or.inl hs
          · exact Or.inr ⟨l, List.mem_cons_of_mem _ hl, hcl⟩

theorem splitOnChar_joinWith (sep : Char) (lines : List (List Char)) (h : lines ≠ [])
    (hs : ∀ l ∈ lines, sep ∉ l) : splitOnChar sep (joinWith sep lines) = lines := by
  induction lines with
  | nil => exact absurd rfl h
  | cons f fs ih =>
    cases fs with
    | nil => rw [joinWith, splitOnChar_of_not_mem sep f (hs f (List.mem_cons_self f []))]
    | cons g gs =>
      rw [joinWith, splitOnChar_append_sep sep _ _ (hs f (List.mem_cons_self f _)),
        ih (by simp) (fun l hl => hs l (List.mem_cons_of_mem f hl))]

theorem parseRow_genLine (delimiter : Char) (fields : List (List Char)) (comment : List Char)
    (hd2 : delimiter ≠ '#') (hd3 : isSpaceChar delimiter = false)
    (hfne : fields ≠ [])
    (hf : ∀ f ∈ fields, f ≠ [] ∧
      ∀ c ∈ f, isSpaceChar c = false ∧ c ≠ '#' ∧ c ≠ delimiter ∧ c ≠ '\n')
    (hcom : goodComment comment = true) :
    parseRow delimiter (genLine delimiter (fields, comment)) = some fields := by
  have hj_chars : ∀ c ∈ joinWith delimiter fields, isSpaceChar c = false ∧ c ≠ '#' := by
    intro c hcm
    rcases mem_joinWith _ _ _ hcm with rfl | ⟨l, hl, hcl⟩
    · exact ⟨hd3, hd2⟩
    · exact ⟨((hf l hl).2 c hcl).1, ((hf l hl).2 c hcl).2.1⟩
  have hj_ne : joinWith delimiter fields ≠ [] :=
    joinWith_ne_nil _ _ hfne (fun l hl => (hf l hl).1)
  have hj_nohash : '#' ∉ joinWith delimiter fields := fun hm => (hj_chars _ hm).2 rfl
  have hsplit : splitOnChar delimiter (joinWith delimiter fields) = fields :=
    splitOnChar_joinWith _ _ hfne (fun l hl hm => ((hf l hl).2 _ hm).2.2.1 rfl)
  have htrim : trimChars (joinWith delimiter fields) = joinWith delimiter fields :=
    trimChars_eq_self _ (fun c hc => (hj_chars c hc).1)
  have hstrip : stripComment (joinWith delimiter fields) = joinWith delimiter fields := by
    rw [stripComment, if_neg (by simpa using hj_nohash)]
  cases comment with
  | nil =>
    simp only [genLine, List.append_nil, parseRow]
    rw [htrim, hstrip, if_neg (by simpa using hj_ne), hsplit]
  | cons c t =>
    simp only [goodComment, Bool.and_eq_true, beq_iff_eq, List.all_eq_true, bne_iff_ne,
      ne_eq] at hcom
    obtain ⟨rfl, ht⟩ := hcom
    have hstrip2 : stripComment (joinWith delimiter fields ++
        '#' :: (List.dropWhile isSpaceChar t.reverse).reverse) = joinWith delimiter fields := by
      rw [stripComment, if_pos (by simp), splitOnChar_append_sep _ _ _ hj_nohash]
      simpa only [List.headI] using htrim
    simp only [genLine, parseRow]
    rw [trimChars_append_hash _ _ hj_ne (fun c hc => (hj_chars c hc).1), hstrip2,
      if_neg (by simpa using hj_ne), hsplit]

theorem filterMap_eq_map_of {α β : Type} (l : List α) (f : α → Option β) (g : α → β)
    (h : ∀ a ∈ l, f a = some (g a)) : l.filterMap f = l.map g := by
  induction l with
  | nil => rfl
  | cons a as ih =>
    rw [List.filterMap_cons, h a (List.mem_cons_self a as), List.map_cons,
      ih (fun b hb => h b (List.mem_cons_of_mem a hb))]

/-!  The claims.  -/

/-- Claim C1: for every flight request and pair of reference tables, the
evaluator performs its validation gates in the fixed order unknown
destination, unknown aircraft, insufficient range, total overbooking, then
economy, business and first-class overbooking; the first failing gate
determines the single reported error, evaluation stops there, and no errors
are aggregated for one flight.  `firstFailure` is the gate cascade exactly
as the spec orders it. -/
theorem spec_C1 (f : Flight) (as : List AirportRow) (ps : List AircraftRow) :
    errorOf (validateAndCalculateProfit f as ps) = firstFailure f as ps := by
  unfold validateAndCalculateProfit firstFailure
  cases h1 : as.find? (fun row => row.code == f.overseasAirportCode) with
  | none => rfl
  | some a =>
    cases h2 : ps.find? (fun row => row.typeName == f.aircraftType) with
    | none => rfl
    | some p =>
      dsimp only
      split_ifs <;> rfl

/-- Claim C2: the fixture request MAN to JFK on a Large narrow body
(cost cell `£7`, range 5600, capacities 180/20/4, primary-origin distance
5376), booking 150/12/2 seats at prices 399/999/1899, evaluates
successfully to income `75636.00`, cost `61716.48` and profit `13919.52`,
the stored cost figure being the currency-stripped numeral 7 (divided by
100 inside the evaluator). -/
theorem spec_C2 :
    validateAndCalculateProfit flightMANJFK airportsData aeroplanesData =
      .ok ⟨flightMANJFK, "75636.00", "61716.48", "13919.52"⟩ ∧
    parsePoundCell "£7" = 7 :=
  ⟨evalMANJFK, parsePoundCell_seven⟩

/-- Claim C3: the batch processor invokes the evaluator once per request
independently; successes are exactly the results of the requests that
evaluate without error, failures are exactly one (request, reason) pair per
failing request, both in input order, a failing record contributes nothing
to successes, and no failure affects any later request.  This is captured
by the pointwise `filterMap` characterisation of `processFlights`. -/
theorem spec_C3 (flights : List Flight) (airports : List AirportRow)
    (aeroplanes : List AircraftRow) :
    processFlights flights airports aeroplanes =
      (flights.filterMap
        (fun flight => (validateAndCalculateProfit flight airports aeroplanes).toOption),
       flights.filterMap
        (fun flight =>
          match validateAndCalculateProfit flight airports aeroplanes with
          | .ok _ => none
          | .error e => some (flight, FlightError.message e))) := by
  rw [processFlights, processFlights_foldl]
  simp

/-- Claim C4: every successful evaluation is for a request that passed all
validation gates: its destination occurs in the airport table, its aircraft
occurs in the aircraft table, the selected distance is within the
aircraft's range, each class's booking is within that class's capacity, and
the total booking is within the summed capacity. -/
theorem spec_C4 (f : Flight) (as : List AirportRow) (ps : List AircraftRow) (r : FlightResult)
    (h : validateAndCalculateProfit f as ps = .ok r) :
    ∃ a ∈ as, a.code = f.overseasAirportCode ∧
    ∃ p ∈ ps, p.typeName = f.aircraftType ∧
      distanceOf f a ≤ p.maxRange ∧
      f.econSeats ≤ p.economySeatsAvailable ∧
      f.busSeats ≤ p.businessSeatsAvailable ∧
      f.firstSeats ≤ p.firstClassSeatsAvailable ∧
      f.econSeats + f.busSeats + f.firstSeats ≤
        p.economySeatsAvailable + p.businessSeatsAvailable + p.firstClassSeatsAvailable := by
  unfold validateAndCalculateProfit at h
  cases h1 : List.find? (fun row => row.code == f.overseasAirportCode) as with
  | none => rw [h1] at h; simp at h
  | some a =>
    rw [h1] at h
    cases h2 : List.find? (fun row => row.typeName == f.aircraftType) ps with
    | none => rw [h2] at h; simp at h
    | some p =>
      rw [h2] at h
      dsimp only at h
      split_ifs at h with hr ht he hb hf
      refine ⟨a, List.mem_of_find?_eq_some h1, ?_, p, List.mem_of_find?_eq_some h2, ?_,
        le_of_not_lt hr, le_of_not_lt he, le_of_not_lt hb, le_of_not_lt hf, le_of_not_lt ht⟩
      · simpa using List.find?_some h1
      · simpa using List.find?_some h2

/-- Witness for C4 at the fixture request. -/
theorem spec_C4_witness :
    ∃ a ∈ airportsData, a.code = flightMANJFK.overseasAirportCode ∧
    ∃ p ∈ aeroplanesData, p.typeName = flightMANJFK.aircraftType ∧
      distanceOf flightMANJFK a ≤ p.maxRange ∧
      flightMANJFK.econSeats ≤ p.economySeatsAvailable ∧
      flightMANJFK.busSeats ≤ p.businessSeatsAvailable ∧
      flightMANJFK.firstSeats ≤ p.firstClassSeatsAvailable ∧
      flightMANJFK.econSeats + flightMANJFK.busSeats + flightMANJFK.firstSeats ≤
        p.economySeatsAvailable + p.businessSeatsAvailable + p.firstClassSeatsAvailable :=
  spec_C4 flightMANJFK airportsData aeroplanesData resultMANJFK evalMANJFK

/-- Claim C5: on every successful evaluation the profit equals income minus
cost exactly, with rounding to two decimals applied only at the output
boundary, separately to each of income, cost and profit. -/
theorem spec_C5 (f : Flight) (as : List AirportRow) (ps : List AircraftRow) (r : FlightResult)
    (h : validateAndCalculateProfit f as ps = .ok r) :
    ∃ income cost : ℚ,
      r = ⟨f, toFixed2 income, toFixed2 cost, toFixed2 (income - cost)⟩ := by
  unfold validateAndCalculateProfit at h
  cases h1 : List.find? (fun row => row.code == f.overseasAirportCode) as with
  | none => rw [h1] at h; simp at h
  | some a =>
    rw [h1] at h
    cases h2 : List.find? (fun row => row.typeName == f.aircraftType) ps with
    | none => rw [h2] at h; simp at h
    | some p =>
      rw [h2] at h
      dsimp only at h
      split_ifs at h
      exact ⟨_, _, (Except.ok.inj h).symm⟩

/-- Witness for C5 at the fixture request. -/
theorem spec_C5_witness :
    ∃ income cost : ℚ,
      resultMANJFK =
        ⟨flightMANJFK, toFixed2 income, toFixed2 cost, toFixed2 (income - cost)⟩ :=
  spec_C5 flightMANJFK airportsData aeroplanesData resultMANJFK evalMANJFK

/-- Counterexample to claim C6 as stated: `cexFlightC6` books economy past
the Large narrow body capacity of 180 while its total stays within the
overall capacity of 204, yet evaluation fails with the unknown-destination
error, not the economy overbooking error, because its destination code is
absent from the table. -/
theorem spec_C6_counterexample :
    cexFlightC6.econSeats > 180 ∧
    cexFlightC6.econSeats + cexFlightC6.busSeats + cexFlightC6.firstSeats ≤ 180 + 20 + 4 ∧
    validateAndCalculateProfit cexFlightC6 airportsData aeroplanesData =
      .error (.invalidAirport "ZZZ") ∧
    isEconomyOverbooking
      (validateAndCalculateProfit cexFlightC6 airportsData aeroplanesData) = false := by
  refine ⟨by decide, by decide, ?_, ?_⟩ <;> decide

/-- Claim C6 as amended: for every request whose destination and aircraft
lookups succeed, whose distance is within range and whose total booking is
within overall capacity, booking one class past its capacity fails with
that class's specific overbooking error — provided every class checked
earlier in the cascade (economy before business before first) is within its
own capacity. -/
theorem spec_C6 (f : Flight) (as : List AirportRow) (ps : List AircraftRow)
    (a : AirportRow) (p : AircraftRow)
    (h1 : as.find? (fun row => row.code == f.overseasAirportCode) = some a)
    (h2 : ps.find? (fun row => row.typeName == f.aircraftType) = some p)
    (hrange : ¬ distanceOf f a > p.maxRange)
    (htotal : ¬ f.econSeats + f.busSeats + f.firstSeats >
        p.economySeatsAvailable + p.businessSeatsAvailable + p.firstClassSeatsAvailable) :
    (f.econSeats > p.economySeatsAvailable →
      validateAndCalculateProfit f as ps =
        .error (.tooManyEconomy f.econSeats p.economySeatsAvailable)) ∧
    (¬ f.econSeats > p.economySeatsAvailable → f.busSeats > p.businessSeatsAvailable →
      validateAndCalculateProfit f as ps =
        .error (.tooManyBusiness f.busSeats p.businessSeatsAvailable)) ∧
    (¬ f.econSeats > p.economySeatsAvailable → ¬ f.busSeats > p.businessSeatsAvailable →
      f.firstSeats > p.firstClassSeatsAvailable →
      validateAndCalculateProfit f as ps =
        .error (.tooManyFirst f.firstSeats p.firstClassSeatsAvailable)) := by
  unfold validateAndCalculateProfit
  rw [h1, h2]
  dsimp only
  rw [if_neg hrange, if_neg htotal]
  refine ⟨fun he => ?_, fun hne hb => ?_, fun hne hnb hf => ?_⟩
  · rw [if_pos he]
  · rw [if_neg hne, if_pos hb]
  · rw [if_neg hne, if_neg hnb, if_pos hf]

/-- Witness for the amended C6: `witFlightC6` passes the earlier gates and
overbooks only economy, so evaluation reports the economy overbooking
error. -/
theorem spec_C6_witness :
    validateAndCalculateProfit witFlightC6 airportsData aeroplanesData =
      .error (.tooManyEconomy 165 160) :=
  (spec_C6 witFlightC6 airportsData aeroplanesData rowORY craftMedium
    (by decide) (by decide) (by decide) (by decide)).1 (by decide)

/-- Claim C7: the reader applied to a generated file with one header line
and N well-formed data rows yields exactly those N rows of fields, each
field an unchanged string, regardless of comment suffixes appended to any
row; the header is discarded unconditionally. -/
theorem spec_C7 (delimiter : Char) (header : List Char)
    (rows : List (List (List Char) × List Char))
    (hd1 : delimiter ≠ '\n') (hd2 : delimiter ≠ '#') (hd3 : isSpaceChar delimiter = false)
    (hheader : '\n' ∉ header)
    (hrows : ∀ r ∈ rows, goodRow delimiter r = true) :
    readCsv delimiter (genContent delimiter header rows) = rows.map Prod.fst := by
  have hgood : ∀ r ∈ rows, r.1 ≠ [] ∧
      (∀ f ∈ r.1, f ≠ [] ∧
        ∀ c ∈ f, isSpaceChar c = false ∧ c ≠ '#' ∧ c ≠ delimiter ∧ c ≠ '\n') ∧
      goodComment r.2 = true := by
    intro r hr
    have h := hrows r hr
    simp only [goodRow, goodField, Bool.and_eq_true, List.all_eq_true, bne_iff_ne, ne_eq,
      Bool.not_eq_true', List.isEmpty_eq_false, Bool.not_eq_true] at h
    obtain ⟨⟨h1, h2⟩, h3⟩ := h
    refine ⟨h1, fun f hf => ⟨(h2 f hf).1, fun c hc => ?_⟩, h3⟩
    obtain ⟨⟨⟨hsp, hh⟩, hdl⟩, hnl⟩ := (h2 f hf).2 c hc
    exact ⟨hsp, hh, hdl, hnl⟩
  have hlines : ∀ l ∈ rows.map (genLine delimiter), '\n' ∉ l := by
    intro l hl hmem
    obtain ⟨r, hr, rfl⟩ := List.mem_map.mp hl
    obtain ⟨h1, h2, h3⟩ := hgood r hr
    rcases List.mem_append.mp hmem with hj | hcm
    · rcases mem_joinWith _ _ _ hj with he | ⟨f, hf, hcf⟩
      · exact hd1 he.symm
      · exact ((h2 f hf).2 _ hcf).2.2.2 rfl
    · cases hc2 : r.2 with
      | nil => rw [hc2] at hcm; simp at hcm
      | cons c t =>
        rw [hc2] at h3 hcm
        simp only [goodComment, Bool.and_eq_true, beq_iff_eq, List.all_eq_true,
          bne_iff_ne, ne_eq] at h3
        rcases List.mem_cons.mp hcm with he | hmt
        · rw [h3.1] at he; exact absurd he (by decide)
        · exact h3.2 _ hmt rfl
  rw [readCsv, genContent, splitOnChar_append_sep '\n' header _ hheader, List.drop_succ_cons,
    List.drop_zero]
  cases rows with
  | nil => rfl
  | cons r rs =>
    rw [splitOnChar_joinWith '\n' _ (by simp) hlines, List.filterMap_map]
    refine filterMap_eq_map_of _ _ _ (fun a ha => ?_)
    obtain ⟨h1, h2, h3⟩ := hgood a ha
    exact parseRow_genLine delimiter a.1 a.2 hd2 hd3 h1 h2 h3

/-- Witness for C7 on a two-row file whose first row carries a comment. -/
theorem spec_C7_witness :
    readCsv ',' (genContent ',' csvHeader csvRows) = csvRows.map Prod.fst :=
  spec_C7 ',' csvHeader csvRows (by decide) (by decide) (by decide) (by decide) (by decide)

/-- Claim C8: when the destination lookup succeeds, the distance used is
the airport row's column-2 value (`distanceFromMAN`) exactly when the
origin is `MAN`, and the column-3 value (`distanceFromOther`) for every
other origin; apart from being echoed in the returned request, the origin
affects evaluation in no other way (two non-MAN origins always produce the
same outcome figures). -/
theorem spec_C8 :
    (∀ (f : Flight) (a : AirportRow), f.ukAirportCode = "MAN" →
      distanceOf f a = a.distanceFromMAN) ∧
    (∀ (f : Flight) (a : AirportRow), f.ukAirportCode ≠ "MAN" →
      distanceOf f a = a.distanceFromOther) ∧
    (∀ (f : Flight) (as : List AirportRow) (ps : List AircraftRow) (c₁ c₂ : String),
      c₁ ≠ "MAN" → c₂ ≠ "MAN" →
      Except.map resultFigures (validateAndCalculateProfit (setOrigin f c₁) as ps) =
      Except.map resultFigures (validateAndCalculateProfit (setOrigin f c₂) as ps)) := by
  have hd : ∀ (f : Flight) (c : String), c ≠ "MAN" → ∀ a : AirportRow,
      distanceOf (setOrigin f c) a = a.distanceFromOther := by
    intro f c hc a
    rw [distanceOf]
    exact if_neg (by simpa [setOrigin] using hc)
  refine ⟨fun f a h => by rw [distanceOf]; exact if_pos h,
    fun f a h => by rw [distanceOf]; exact if_neg h, ?_⟩
  intro f as ps c₁ c₂ hc₁ hc₂
  unfold validateAndCalculateProfit
  dsimp only [setOrigin]
  cases h1 : List.find? (fun row => row.code == f.overseasAirportCode) as with
  | none => rfl
  | some a =>
    cases h2 : List.find? (fun row => row.typeName == f.aircraftType) ps with
    | none => rfl
    | some p =>
      dsimp only
      rw [show distanceOf { f with ukAirportCode := c₁ } a = a.distanceFromOther from
            hd f c₁ hc₁ a,
          show distanceOf { f with ukAirportCode := c₂ } a = a.distanceFromOther from
            hd f c₂ hc₂ a]
      split_ifs <;> rfl

/-- Witness for C8 at the fixture rows and origins LGW and LHR. -/
theorem spec_C8_witness :
    distanceOf flightMANJFK rowJFK = rowJFK.distanceFromMAN ∧
    distanceOf witFlightC6 rowORY = rowORY.distanceFromOther ∧
    Except.map resultFigures (validateAndCalculateProfit (setOrigin flightMANJFK "LGW")
        airportsData aeroplanesData) =
      Except.map resultFigures (validateAndCalculateProfit (setOrigin flightMANJFK "LHR")
        airportsData aeroplanesData) :=
  ⟨spec_C8.1 flightMANJFK rowJFK rfl,
   spec_C8.2.1 witFlightC6 rowORY (by decide),
   spec_C8.2.2 flightMANJFK airportsData aeroplanesData "LGW" "LHR" (by decide) (by decide)⟩

/-- Claim C9: evaluation is based entirely on the first matching row of
each table: appending any rows after an existing match, in either table,
never changes the outcome. -/
theorem spec_C9 (f : Flight) (as : List AirportRow) (ps : List AircraftRow)
    (extraA : List AirportRow) (extraP : List AircraftRow) :
    ((as.find? (fun row => row.code == f.overseasAirportCode)).isSome →
      validateAndCalculateProfit f (as ++ extraA) ps = validateAndCalculateProfit f as ps) ∧
    ((ps.find? (fun row => row.typeName == f.aircraftType)).isSome →
      validateAndCalculateProfit f as (ps ++ extraP) = validateAndCalculateProfit f as ps) := by
  constructor
  · intro h
    obtain ⟨a, ha⟩ := Option.isSome_iff_exists.mp h
    unfold validateAndCalculateProfit
    rw [List.find?_append, ha]
    rfl
  · intro h
    obtain ⟨p, hp⟩ := Option.isSome_iff_exists.mp h
    unfold validateAndCalculateProfit
    rw [List.find?_append, hp]
    rfl

/-- Witness for C9: appending a duplicate JFK airport row or a duplicate
Large narrow body aircraft row after the existing match leaves the fixture
evaluation unchanged. -/
theorem spec_C9_witness :
    validateAndCalculateProfit flightMANJFK (airportsData ++ [⟨"JFK", "Duplicate", 1, 2⟩])
        aeroplanesData =
      validateAndCalculateProfit flightMANJFK airportsData aeroplanesData ∧
    validateAndCalculateProfit flightMANJFK airportsData
        (aeroplanesData ++ [⟨"Large narrow body", 0, 1, 0, 0, 0⟩]) =
      validateAndCalculateProfit flightMANJFK airportsData aeroplanesData :=
  ⟨(spec_C9 flightMANJFK airportsData aeroplanesData [⟨"JFK", "Duplicate", 1, 2⟩] []).1
      (by decide),
   (spec_C9 flightMANJFK airportsData aeroplanesData [] [⟨"Large narrow body", 0, 1, 0, 0, 0⟩]).2
      (by decide)⟩

/-- Claim C10: when the destination, aircraft and range gates pass and each
booked count is at most its class capacity, evaluation succeeds — there is
no lower-bound check, so negative booked counts are never rejected. -/
theorem spec_C10 (f : Flight) (as : List AirportRow) (ps : List AircraftRow)
    (a : AirportRow) (p : AircraftRow)
    (h1 : as.find? (fun row => row.code == f.overseasAirportCode) = some a)
    (h2 : ps.find? (fun row => row.typeName == f.aircraftType) = some p)
    (hrange : ¬ distanceOf f a > p.maxRange)
    (he : f.econSeats ≤ p.economySeatsAvailable)
    (hb : f.busSeats ≤ p.businessSeatsAvailable)
    (hf : f.firstSeats ≤ p.firstClassSeatsAvailable) :
    ∃ r : FlightResult, validateAndCalculateProfit f as ps = .ok r ∧ r.flightDetails = f := by
  unfold validateAndCalculateProfit
  rw [h1, h2]
  dsimp only
  rw [if_neg hrange, if_neg (by omega : ¬ f.econSeats + f.busSeats + f.firstSeats >
        p.economySeatsAvailable + p.businessSeatsAvailable + p.firstClassSeatsAvailable),
    if_neg (not_lt.mpr he), if_neg (not_lt.mpr hb), if_neg (not_lt.mpr hf)]
  exact ⟨_, rfl, rfl⟩

/-- Witness for C10 at a request booking -5 economy and -3 business seats. -/
theorem spec_C10_witness :
    ∃ r : FlightResult,
      validateAndCalculateProfit negativeFlight airportsData aeroplanesData = .ok r ∧
      r.flightDetails = negativeFlight :=
  spec_C10 negativeFlight airportsData aeroplanesData rowORY craftMedium
    (by decide) (by decide) (by decide) (by decide) (by decide) (by decide)
